import Mathlib

/-!
Verification of the core classes of `bikewheelcalc` (file
`src/bikewheelcalc/bicycle_wheel.py`): `Rim`, `Hub`, `Spoke` and
`BicycleWheel`.

The Python code is shallowly embedded: floating-point scalars are modelled
as exact rationals (`ℚ`), `None`-able values as `Option ℚ`, raised Python
exceptions as an explicit `PyError` sum carried in `Except` / `PyResult`,
and 3- and 4-dimensional numpy arrays as `Fin 3 → ℚ` vectors and
`Matrix (Fin n) (Fin n) ℚ`.  The constant `np.pi` is a 64-bit float in the
source; it is embedded as the exact rational value of that float.
-/

set_option linter.unusedVariables false

namespace BikeWheel

/-- The exact rational value of the IEEE-754 double `np.pi`
(the float nearest to the real number pi). -/
def np_pi : ℚ := 884279719003555 / 281474976710656

/-- Python exceptions that the translated code can raise. -/
inductive PyError where
  | attributeError (name : String)
  | nameError (name : String)
  | unboundLocalError (name : String)
  | valueError (msg : String)
  | typeError (msg : String)
  | indexError
  | zeroDivisionError
  deriving DecidableEq

/-- Result of a Python method call on a mutable object: the state of the
object after the call (mutations before an exception are kept) together
with the exception, if one was raised. -/
structure PyResult (α : Type) where
  state : α
  err : Option PyError
  deriving DecidableEq

/-- `spokes[i]`: list indexing, raising `IndexError` out of range. -/
def listGet {α : Type} (xs : List α) (i : ℕ) : Except PyError α :=
  match xs.get? i with
  | some x => Except.ok x
  | none => Except.error PyError.indexError

/-- `Rim`: cross-section and material properties (class `Rim`). -/
structure Rim where
  radius : ℚ
  area : ℚ
  I_rad : ℚ
  I_lat : ℚ
  J_tor : ℚ
  I_warp : ℚ
  young_mod : ℚ
  shear_mod : ℚ
  density : Option ℚ
  sec_type : String
  sec_params : List (String × ℚ)
  deriving DecidableEq

/-- `Rim.general`: direct constructor from all section constants. -/
def Rim.general (radius area I_rad I_lat J_tor I_warp young_mod shear_mod : ℚ)
    (density : Option ℚ) : Rim :=
  ⟨radius, area, I_rad, I_lat, J_tor, I_warp, young_mod, shear_mod, density,
    "general", []⟩

/-- `Rim.box`: derives `area`, `J_tor`, `I_rad`, `I_lat` from the box
section parameters.  The next source line is `I_warp = I_warp`: `I_warp`
is a local variable of `box` (it is assigned on that line) that is read
before any assignment to it, so the call raises
`UnboundLocalError("I_warp")` before the `Rim` object is built. -/
def Rim.box (radius w h t young_mod shear_mod : ℚ) (density : Option ℚ) :
    Except PyError Rim :=
  let area := 2*(w + t/2)*t + 2*(h - t/2)*t
  let J_tor := 2*t*(w*h)^2 / (w + h)
  let I_rad := 2*(t*(h + t)^3)/12 + 2*((w - t)*t^3/12 + (w - t)*t*(h/2)^2)
  let I_lat := 2*(t*(w + t)^3)/12 + 2*((h - t)*t^3/12 + (h - t)*t*(w/2)^2)
  Except.error (PyError.unboundLocalError "I_warp")

/-- `Rim.calc_mass`: `density * 2*np.pi*radius * area`, or `None`. -/
def Rim.calc_mass (r : Rim) : Option ℚ :=
  r.density.map fun d => d * (2 * np_pi * r.radius) * r.area

/-- `Rim.calc_rot_inertia`: `calc_mass() * radius**2`, or `None`. -/
def Rim.calc_rot_inertia (r : Rim) : Option ℚ :=
  r.density.map fun d => (d * (2 * np_pi * r.radius) * r.area) * r.radius^2

/-- `Hub`: two-flange geometry, as resolved by `Hub.__init__`. -/
structure Hub where
  diameter_nds : Option ℚ
  diameter_ds : Option ℚ
  width_nds : ℚ
  width_ds : ℚ
  deriving DecidableEq

/-- `Hub.__init__`: arguments are `None` (`Option.none`) or a float.
Flange diameters default to the shared `diameter`; the widths are resolved
by precedence: symmetric `width` (with optional `offset`, conflicting with
per-side widths), else both per-side widths, else `ValueError`. -/
def Hub.init (diameter diameter_nds diameter_ds width width_nds width_ds
    offset : Option ℚ) : Except PyError Hub :=
  let dnds := match diameter_nds with
    | some d => some d
    | none => diameter
  let dds := match diameter_ds with
    | some d => some d
    | none => diameter
  match width with
  | some w =>
    let o := offset.getD 0
    if width_nds.isSome || width_ds.isSome then
      Except.error (PyError.valueError
        "Cannot specify width_left or width_right when using the offset parameter.")
    else
      Except.ok ⟨dnds, dds, w/2 + o, w/2 - o⟩
  | none =>
    match width_nds, width_ds with
    | some wn, some wd => Except.ok ⟨dnds, dds, wn, wd⟩
    | _, _ =>
      Except.error (PyError.valueError
        "width_left and width_right must both be defined if not using the width parameter.")

/-- `Spoke`: single-spoke data.  `n` and `b` are 3-vectors in the
rim-local frame; `tension` and `EA` are the attributes set by
`Spoke.__init__`. -/
structure Spoke where
  theta : ℚ
  n : Fin 3 → ℚ
  b : Fin 3 → ℚ
  length : ℚ
  diameter : ℚ
  young_mod : ℚ
  density : Option ℚ
  tension : ℚ
  EA : ℚ

/-- `Spoke.__init__`: sets `tension = 0` and
`EA = np.pi/4 * diameter**2 * young_mod`. -/
def Spoke.init (theta : ℚ) (n b : Fin 3 → ℚ) (length diameter young_mod : ℚ)
    (density : Option ℚ) : Spoke :=
  ⟨theta, n, b, length, diameter, young_mod, density, 0,
    np_pi / 4 * diameter^2 * young_mod⟩

/-- `np.outer(u, v)` for 3-vectors. -/
def np_outer (u v : Fin 3 → ℚ) : Matrix (Fin 3) (Fin 3) ℚ :=
  Matrix.of fun i j => u i * v j

/-- `np.cross(u, v)` for 3-vectors. -/
def cross3 (u v : Fin 3 → ℚ) : Fin 3 → ℚ :=
  ![u 1 * v 2 - u 2 * v 1, u 2 * v 0 - u 0 * v 2, u 0 * v 1 - u 1 * v 0]

/-- The rim axial vector `e3 = np.array([0., 0., 1.])`. -/
def e3 : Fin 3 → ℚ := ![0, 0, 1]

/-- The shared block assembly of `calc_k` and `calc_k_geom`:
`k[0:3, 0:3] = k_f`, `k[0:3, 3] = dFdphi`, `k[3, 0:3] = dFdphi`,
`k[3, 3] = dTdphi`. -/
def assemble4 (kf : Matrix (Fin 3) (Fin 3) ℚ) (dF : Fin 3 → ℚ) (dT : ℚ) :
    Matrix (Fin 4) (Fin 4) ℚ :=
  Matrix.of ![![kf 0 0, kf 0 1, kf 0 2, dF 0],
              ![kf 1 0, kf 1 1, kf 1 2, dF 1],
              ![kf 2 0, kf 2 1, kf 2 2, dF 2],
              ![dF 0, dF 1, dF 2, dT]]

/-- `Spoke.calc_k(tension)`: the 4x4 matrix relating rim force and moment
to rim displacement `(u, v, w)` and rotation `phi`.
`K_e = EA/length`; `K_t = tension/length` if the flag is set, else 0;
`k_f = K_e*outer(n, n) + K_t*(eye(3) - outer(n, n))`;
`dFdphi = k_f . (e3 x b)`; `dTdphi = (b x e3) . k_f . (b x e3)`. -/
def Spoke.calc_k (s : Spoke) (tension : Bool) : Matrix (Fin 4) (Fin 4) ℚ :=
  let K_e := s.EA / s.length
  let K_t := if tension then s.tension / s.length else 0
  let k_f := K_e • np_outer s.n s.n + K_t • ((1 : Matrix (Fin 3) (Fin 3) ℚ) - np_outer s.n s.n)
  let dFdphi := k_f.mulVec (cross3 e3 s.b)
  let dTdphi := Matrix.dotProduct (cross3 s.b e3) (k_f.mulVec (cross3 s.b e3))
  assemble4 k_f dFdphi dTdphi

/-- `Spoke.calc_k_geom()`: same construction with
`k_f = (1/length)*(eye(3) - outer(n, n))`. -/
def Spoke.calc_k_geom (s : Spoke) : Matrix (Fin 4) (Fin 4) ℚ :=
  let k_f := (1 / s.length) • ((1 : Matrix (Fin 3) (Fin 3) ℚ) - np_outer s.n s.n)
  let dFdphi := k_f.mulVec (cross3 e3 s.b)
  let dTdphi := Matrix.dotProduct (cross3 s.b e3) (k_f.mulVec (cross3 s.b e3))
  assemble4 k_f dFdphi dTdphi

/-- `Spoke.calc_mass`: `density * length * np.pi/4*diameter**2`, or `None`. -/
def Spoke.calc_mass (s : Spoke) : Option ℚ :=
  s.density.map fun d => d * s.length * (np_pi / 4 * s.diameter^2)

/-- `Spoke.calc_rot_inertia`: `calc_mass() * (length*n[1])**2 / 12`, or
`None`. -/
def Spoke.calc_rot_inertia (s : Spoke) : Option ℚ :=
  s.calc_mass.map fun m => m * (s.length * s.n 1)^2 / 12

/-- `BicycleWheel`: `__init__` sets `spokes = []`, `rim = None`,
`hub = None`.  The attributes `hub_width_ds` and `hub_width_nds` that
`lace_cross_side` reads are modelled as `Option` fields because no code in
the module ever assigns them: on a wheel built by `__init__` they are
absent (`none`), and reading an absent attribute raises
`AttributeError`. -/
structure BicycleWheel where
  spokes : List Spoke
  rim : Option Rim
  hub : Option Hub
  hub_width_ds : Option ℚ
  hub_width_nds : Option ℚ

/-- `BicycleWheel.__init__`. -/
def BicycleWheel.init : BicycleWheel := ⟨[], none, none, none, none⟩

/-- Insert a spoke into a theta-sorted list (helper for
`reorder_spokes`). -/
def insertByTheta (s : Spoke) : List Spoke → List Spoke
  | [] => [s]
  | t :: ts => if s.theta ≤ t.theta then s :: t :: ts else t :: insertByTheta s ts

/-- Sort a spoke list ascending by `theta` (insertion sort; models the
`np.argsort([s.theta for s in self.spokes])` reordering). -/
def sortByTheta : List Spoke → List Spoke
  | [] => []
  | s :: ss => insertByTheta s (sortByTheta ss)

/-- `BicycleWheel.reorder_spokes`: re-sort the spoke list ascending by
`theta`. -/
def BicycleWheel.reorder_spokes (w : BicycleWheel) : BicycleWheel :=
  { w with spokes := sortByTheta w.spokes }

/-- `BicycleWheel.lace_cross_side`.  Control flow of the source:
the `direction` and `side` normalizations are pure; the next statement
`hub_z = [-self.hub_width_ds + offset_lat, self.hub_width_nds - offset_lat]`
reads the wheel attributes `hub_width_ds` then `hub_width_nds`, which no
code in the module assigns, so on any wheel built by `__init__` it raises
`AttributeError`; the following statement
`hub_r = [self.hub.diameter_ds, self.hub.diameter_nds]` raises
`AttributeError` when `hub` is `None`; and the first loop iteration
evaluates `theta_hub = theta_rim + 2*np.pi/n_spokes*n_cross*s_dir`, where
`s_dir` is an unbound name, raising `NameError` before any spoke is
appended.  Only `n_spokes = 0` escapes the loop body: then the list is
re-sorted and the call returns `True`. -/
def BicycleWheel.lace_cross_side (w : BicycleWheel) (n_spokes n_cross : ℕ)
    (side direction : ℤ) (offset diameter young_mod : ℚ) (density : Option ℚ)
    (offset_lat offset_rad : ℚ) : PyResult BicycleWheel :=
  let direction2 : ℤ := 2 * (if direction > 0 then 1 else 0) - 1
  let sideIdx : ℕ := if side > 0 then 1 else 0
  match w.hub_width_ds with
  | none => ⟨w, some (PyError.attributeError "hub_width_ds")⟩
  | some hub_width_ds =>
    match w.hub_width_nds with
    | none => ⟨w, some (PyError.attributeError "hub_width_nds")⟩
    | some hub_width_nds =>
      match w.hub with
      | none => ⟨w, some (PyError.attributeError "diameter_ds")⟩
      | some hub =>
        if n_spokes = 0 then
          ⟨w.reorder_spokes, none⟩
        else
          ⟨w, some (PyError.nameError "s_dir")⟩

/-- `BicycleWheel.lace_cross`: sets `self.spokes = []`, then laces
`n_spokes//2` spokes per side via `lace_cross_side`; the second call
passes `offset = np.pi/(n_spokes//2)`, a `ZeroDivisionError` when
`n_spokes//2 = 0`. -/
def BicycleWheel.lace_cross (w : BicycleWheel) (n_spokes n_cross : ℕ)
    (diameter young_mod : ℚ) (density : Option ℚ) (offset_lat offset_rad : ℚ) :
    PyResult BicycleWheel :=
  let w1 := { w with spokes := [] }
  let r1 := w1.lace_cross_side (n_spokes / 2) n_cross 1 1 0 diameter young_mod
    density offset_lat offset_rad
  match r1.err with
  | some e => ⟨r1.state, some e⟩
  | none =>
    if n_spokes / 2 = 0 then
      ⟨r1.state, some PyError.zeroDivisionError⟩
    else
      let r2 := r1.state.lace_cross_side (n_spokes / 2) n_cross 1 1
        (np_pi / ((n_spokes / 2 : ℕ) : ℚ)) diameter young_mod density
        offset_lat offset_rad
      ⟨r2.state, r2.err⟩

/-- The two strided assignment loops of `apply_tension`:
even-indexed spokes get `T_l`, odd-indexed spokes get `T_r`. -/
def assignTensions (T_l T_r : ℚ) : List Spoke → List Spoke
  | [] => []
  | [s] => [{ s with tension := T_l }]
  | sl :: sr :: rest =>
    { sl with tension := T_l } :: { sr with tension := T_r } ::
      assignTensions T_l T_r rest

/-- `BicycleWheel.apply_tension(T_avg, T_left, T_right)`: reads
`spokes[0]` and `spokes[1]` first (IndexError on fewer than two spokes),
then branches on `T_avg`, then `T_right`, then `T_left`, raising
`TypeError` when all three are `None`; finally assigns `T_l` to
even-indexed and `T_r` to odd-indexed spokes. -/
def BicycleWheel.apply_tension (w : BicycleWheel)
    (T_avg T_left T_right : Option ℚ) : Except PyError BicycleWheel := do
  let s_l ← listGet w.spokes 0
  let s_r ← listGet w.spokes 1
  match T_avg, T_right, T_left with
  | some T, _, _ =>
    let T_l := 2 * T * |s_r.n 0| /
      (|s_l.n 0 * s_r.n 1| + |s_r.n 0 * s_l.n 1|)
    let T_r := 2 * T * |s_l.n 0| /
      (|s_l.n 0 * s_r.n 1| + |s_r.n 0 * s_l.n 1|)
    Except.ok { w with spokes := assignTensions T_l T_r w.spokes }
  | none, some T, _ =>
    let T_r := T
    let T_l := |s_r.n 0 / s_l.n 0| * T
    Except.ok { w with spokes := assignTensions T_l T_r w.spokes }
  | none, none, some T =>
    let T_l := T
    let T_r := |s_l.n 0 / s_r.n 0| * T
    Except.ok { w with spokes := assignTensions T_l T_r w.spokes }
  | none, none, none =>
    Except.error (PyError.typeError
      "Must specify one of the following arguments: T_avg, T_left, or T_right.")

/-- `BicycleWheel.calc_kbar_geom`: reads `spokes[0]` and `spokes[1]`
(IndexError on fewer than two spokes), computes the tension scaling
denominator `T_d`, and folds
`np.abs(s.n[0])/T_d * s.calc_k_geom()/(np.pi*self.rim.radius)` over all
spokes (reading `self.rim.radius` raises `AttributeError` when `rim` is
`None`; with at least two spokes the loop always reads it). -/
def BicycleWheel.calc_kbar_geom (w : BicycleWheel) :
    Except PyError (Matrix (Fin 4) (Fin 4) ℚ) := do
  let s_0 ← listGet w.spokes 0
  let s_1 ← listGet w.spokes 1
  let T_d := |s_0.n 0 * s_1.n 1| + |s_1.n 0 * s_0.n 1|
  let rim ← match w.rim with
    | some r => Except.ok r
    | none => Except.error (PyError.attributeError "radius")
  Except.ok (w.spokes.foldl
    (fun k_bar s =>
      k_bar + (|s.n 0| / T_d) • ((np_pi * rim.radius)⁻¹ • s.calc_k_geom)) 0)

/-- The body of the spoke loop in `BicycleWheel.calc_rot_inertia`:
`rim_pt = [0, -radius + b[1], 0]`, `hub_pt = rim_pt + n*length`,
`mid_pt = (rim_pt + hub_pt)/2`,
contribution `I_spk[i] + mass*(mid_pt[0]**2 + mid_pt[1]**2)`
(the `getD 0` fallbacks are unreachable there: that loop only runs when
every spoke density is present). -/
def spokeInertiaContrib (radius : ℚ) (s : Spoke) : ℚ :=
  s.calc_rot_inertia.getD 0 +
    s.calc_mass.getD 0 *
      ((s.n 0 * s.length / 2)^2 + (-radius + s.b 1 + s.n 1 * s.length / 2)^2)

/-- `BicycleWheel.calc_rot_inertia`: rim term (0 plus a warning when the
rim density is absent), then the spoke term: if any spoke rotational
inertia is `None` the whole spoke term is set to `0` with a warning,
otherwise the per-spoke contributions with the parallel-axis correction
are summed.  Returns the total together with the emitted warnings;
raises `AttributeError` when `rim` is `None`. -/
def BicycleWheel.calc_rot_inertia (w : BicycleWheel) :
    Except PyError (ℚ × List String) := do
  let rim ← match w.rim with
    | some r => Except.ok r
    | none => Except.error (PyError.attributeError "calc_rot_inertia")
  let rimPart : ℚ × List String :=
    match rim.calc_rot_inertia with
    | some v => (v, [])
    | none => (0, ["Rim density is not specified."])
  let I_spk := w.spokes.map Spoke.calc_rot_inertia
  if I_spk.any Option.isNone then
    Except.ok (rimPart.1 + 0,
      rimPart.2 ++ ["Some spoke densities are not specified."])
  else
    Except.ok
      (rimPart.1 +
        w.spokes.foldl (fun acc s => acc + spokeInertiaContrib rim.radius s) 0,
       rimPart.2)

/-! Concrete instances used to evaluate the definitions. -/

/-- A concrete rim with arbitrary section constants. -/
def rim0 : Rim :=
  Rim.general (3/10) (82/1000000) (1/10^9) (2/10^9) (1/10^9) (1/10^12)
    (69*10^9) (26*10^9) none

/-- A concrete symmetric hub. -/
def hub0 : Hub := ⟨some (5/100), some (5/100), 25/1000, 25/1000⟩

/-- A wheel with rim and hub assigned, as built by `__init__` followed by
the `rim`/`hub` assignments (so the `hub_width_*` attributes are absent). -/
def cw1 : BicycleWheel := ⟨[], some rim0, some hub0, none, none⟩

/-- A concrete spoke with unit direction `(3/5, 4/5, 0)`. -/
def sL3 : Spoke :=
  Spoke.init 0 ![3/5, 4/5, 0] ![0, 0, 0] (3/10) (2/1000) (210*10^9) none

/-- A concrete spoke with unit direction `(-4/5, 3/5, 0)`. -/
def sR3 : Spoke :=
  Spoke.init (1/10) ![-(4/5), 3/5, 0] ![0, 0, 0] (3/10) (2/1000) (210*10^9) none

/-- A two-spoke wheel whose first two spokes have different absolute
radial direction components. -/
def cw3 : BicycleWheel := ⟨[sL3, sR3], none, none, none, none⟩

/-- A concrete spoke with unit direction `(-4/5, 3/5, 0)`. -/
def sL4 : Spoke :=
  Spoke.init 0 ![-(4/5), 3/5, 0] ![0, 0, 0] (3/10) (2/1000) (210*10^9) none

/-- A concrete spoke with unit direction `(3/5, 4/5, 0)`. -/
def sR4 : Spoke :=
  Spoke.init (1/10) ![3/5, 4/5, 0] ![0, 0, 0] (3/10) (2/1000) (210*10^9) none

/-- A second two-spoke wheel with sides swapped relative to `cw3`. -/
def cw4 : BicycleWheel := ⟨[sL4, sR4], none, none, none, none⟩

/-- A concrete spoke with unit direction and a nonzero nipple offset. -/
def cs5 : Spoke :=
  Spoke.init 0 ![3/5, 4/5, 0] ![0, 1/100, 0] (3/10) (2/1000) (210*10^9) none

/-- A concrete rim with density set. -/
def rim8 : Rim := Rim.general 1 1 1 1 1 1 1 1 (some 1)

/-- A concrete spoke whose density is set. -/
def sk8 : Spoke := Spoke.init 0 ![0, 1, 0] ![0, 0, 0] 1 2 1 (some 1)

/-- A concrete spoke whose density is absent. -/
def su8 : Spoke := Spoke.init (1/2) ![0, 1, 0] ![0, 0, 0] 1 2 1 none

/-- A wheel with rim density set and spoke densities partly set. -/
def cw8 : BicycleWheel := ⟨[sk8, su8], some rim8, none, none, none⟩

/-- A concrete spoke used for the short-spoke-list wheels. -/
def s9 : Spoke := Spoke.init 0 ![3/5, 4/5, 0] ![0, 0, 0] 1 1 1 none

/-- A wheel with a single spoke. -/
def cw9a : BicycleWheel := ⟨[s9], none, none, none, none⟩

/-- A wheel with exactly two spokes. -/
def cw9b : BicycleWheel := ⟨[s9, s9], none, none, none, none⟩

/-! Theorems. -/

/-- Claim C2: the claim asserts `Rim.box` succeeds and derives the box
section constants.  In the source, after `area`, `J_tor`, `I_rad` and
`I_lat` are computed, the statement `I_warp = I_warp` reads the local
variable `I_warp` before any assignment to it, so every call raises
`UnboundLocalError` instead of returning a `Rim` (code bug: the spec
describes `I_warp` as passed through unmodified and its round-trip
scenario requires `box` to succeed). -/
theorem box_always_raises (radius w h t young_mod shear_mod : ℚ)
    (density : Option ℚ) :
    Rim.box radius w h t young_mod shear_mod density =
      Except.error (PyError.unboundLocalError "I_warp") := rfl

/-- Claim C1: the claim asserts `lace_cross(36, 3, ...)` on a wheel with
rim and hub assigned produces 36 spokes sorted by theta.  In the source,
`lace_cross_side` reads the attribute `hub_width_ds`, which no code
assigns, so the call raises `AttributeError` (and its loop body would
reference the unbound name `s_dir`), leaving the wheel with 0 spokes
instead of 36 (code bug: the spec design notes flag the `s_dir`
defect). -/
theorem lace_cross_raises_on_assembled_wheel :
    (cw1.lace_cross 36 3 (2/1000) (210*10^9) none 0 0).err =
      some (PyError.attributeError "hub_width_ds") ∧
    (cw1.lace_cross 36 3 (2/1000) (210*10^9) none 0 0).state.spokes.length = 0 :=
  ⟨rfl, rfl⟩

/-- Claim C10: `lace_cross` empties the spoke collection before
generating any spoke, and every path through spoke generation raises, so
the wheel is always left with zero spokes: prior spokes are lost and not
restored. -/
theorem lace_cross_empties_then_raises (w : BicycleWheel)
    (n_spokes n_cross : ℕ) (diameter young_mod : ℚ) (density : Option ℚ)
    (offset_lat offset_rad : ℚ) :
    (w.lace_cross n_spokes n_cross diameter young_mod density offset_lat
        offset_rad).err.isSome = true ∧
    (w.lace_cross n_spokes n_cross diameter young_mod density offset_lat
        offset_rad).state.spokes = [] := by
  simp only [BicycleWheel.lace_cross, BicycleWheel.lace_cross_side]
  cases w.hub_width_ds with
  | none => simp
  | some a =>
    cases w.hub_width_nds with
    | none => simp
    | some b =>
      cases w.hub with
      | none => simp
      | some hub =>
        by_cases hn : n_spokes / 2 = 0
        · simp [hn, BicycleWheel.reorder_spokes, sortByTheta]
        · simp [hn]

/-- Claim C7: `Hub` construction resolves flange widths by precedence:
a symmetric `width` gives `width_nds = width/2 + offset` and
`width_ds = width/2 - offset` (offset defaulting to 0) and conflicts with
any per-side width (`ValueError`); otherwise both per-side widths are
used directly; otherwise construction raises `ValueError` — never
silently defaulting. -/
theorem hub_width_resolution (d dn dd : Option ℚ) (w o wn wd : ℚ)
    (wnO wdO oO : Option ℚ) :
    (∃ hub, Hub.init d dn dd (some w) none none (some o) = Except.ok hub ∧
      hub.width_nds = w/2 + o ∧ hub.width_ds = w/2 - o) ∧
    (∃ hub, Hub.init d dn dd (some w) none none none = Except.ok hub ∧
      hub.width_nds = w/2 ∧ hub.width_ds = w/2) ∧
    Hub.init d dn dd (some w) (some wn) wdO oO = Except.error
      (PyError.valueError
        "Cannot specify width_left or width_right when using the offset parameter.") ∧
    Hub.init d dn dd (some w) wnO (some wd) oO = Except.error
      (PyError.valueError
        "Cannot specify width_left or width_right when using the offset parameter.") ∧
    (∃ hub, Hub.init d dn dd none (some wn) (some wd) oO = Except.ok hub ∧
      hub.width_nds = wn ∧ hub.width_ds = wd) ∧
    Hub.init d dn dd none none wdO oO = Except.error
      (PyError.valueError
        "width_left and width_right must both be defined if not using the width parameter.") ∧
    Hub.init d dn dd none wnO none oO = Except.error
      (PyError.valueError
        "width_left and width_right must both be defined if not using the width parameter.") := by
  refine ⟨⟨_, rfl, rfl, rfl⟩, ⟨_, rfl, by norm_num, by norm_num⟩, ?_, ?_, ?_, ?_, ?_⟩
  · simp [Hub.init]
  · simp [Hub.init]
  · exact ⟨_, rfl, rfl, rfl⟩
  · cases wdO <;> simp [Hub.init]
  · cases wnO <;> simp [Hub.init]

/-- Claim C9: on a wheel with fewer than two spokes, `apply_tension`
raises `IndexError` from reading `spokes[0]`/`spokes[1]` before any
argument validation, whatever tension arguments are supplied, and
`calc_kbar_geom` has the same precondition; the documented no-argument
`TypeError` is reached exactly on wheels with at least two spokes. -/
theorem apply_tension_two_spoke_precondition (w : BicycleWheel)
    (Ta Tl Tr : Option ℚ) :
    (w.spokes.length < 2 →
      w.apply_tension Ta Tl Tr = Except.error PyError.indexError ∧
      w.calc_kbar_geom = Except.error PyError.indexError) ∧
    (2 ≤ w.spokes.length →
      w.apply_tension none none none = Except.error (PyError.typeError
        "Must specify one of the following arguments: T_avg, T_left, or T_right.")) := by
  constructor
  · intro h
    match hsp : w.spokes with
    | [] =>
      constructor <;>
        simp [BicycleWheel.apply_tension, BicycleWheel.calc_kbar_geom,
          listGet, hsp, Bind.bind, Except.bind]
    | [s] =>
      constructor <;>
        simp [BicycleWheel.apply_tension, BicycleWheel.calc_kbar_geom,
          listGet, hsp, Bind.bind, Except.bind]
    | a :: b :: rest =>
      rw [hsp] at h
      simp at h
      omega
  · intro h
    match hsp : w.spokes with
    | [] => simp [hsp] at h
    | [s] => simp [hsp] at h
    | a :: b :: rest =>
      simp [BicycleWheel.apply_tension, listGet, hsp, Bind.bind, Except.bind]

/-- Witness for `apply_tension_two_spoke_precondition` at a one-spoke and
a two-spoke wheel. -/
theorem apply_tension_two_spoke_precondition_witness :
    (cw9a.apply_tension (some 5) none none = Except.error PyError.indexError ∧
      cw9a.calc_kbar_geom = Except.error PyError.indexError) ∧
    cw9b.apply_tension none none none = Except.error (PyError.typeError
      "Must specify one of the following arguments: T_avg, T_left, or T_right.") :=
  ⟨(apply_tension_two_spoke_precondition cw9a (some 5) none none).1 (by decide),
   (apply_tension_two_spoke_precondition cw9b none none none).2 (by decide)⟩

/-- Indexing an `assignTensions` result: the spoke at index `i` is the
original spoke with tension `T_l` at even `i` and `T_r` at odd `i`. -/
theorem assignTensions_get? (T_l T_r : ℚ) :
    ∀ (l : List Spoke) (i : ℕ),
      (assignTensions T_l T_r l).get? i =
        (l.get? i).map fun s =>
          { s with tension := if i % 2 = 0 then T_l else T_r }
  | [], i => by simp [assignTensions]
  | [s], i => by
    match i with
    | 0 => simp [assignTensions]
    | 1 => simp [assignTensions]
    | (k+2) => simp [assignTensions]
  | sl :: sr :: rest, i => by
    match i with
    | 0 => simp [assignTensions]
    | 1 => simp [assignTensions]
    | (k+2) =>
      have ih := assignTensions_get? T_l T_r rest k
      simp only [assignTensions, List.get?_cons_succ]
      rw [ih]
      have : (k + 2) % 2 = k % 2 := Nat.add_mod_right k 2
      rw [this]

/-- Claim C3 (amended): after `apply_tension(T_avg)` on a wheel with at
least two spokes and nonzero denominator, even-indexed spokes get the
uniform tension `T_l` and odd-indexed spokes `T_r`; these satisfy the
lateral force balance `T_l*|n_l0| = T_r*|n_r0|` (the claim's
`T_l*|n_l0*n_r1| = T_r*|n_r0*n_l1|` is false in general, see the
counterexample), and the radial-tension average
`(T_l*|n_l1| + T_r*|n_r1|)/2` recovers `T_avg`. -/
theorem apply_tension_Tavg_balance (w : BicycleWheel) (T : ℚ) (s_l s_r : Spoke)
    (h0 : w.spokes.get? 0 = some s_l) (h1 : w.spokes.get? 1 = some s_r)
    (hD : |s_l.n 0 * s_r.n 1| + |s_r.n 0 * s_l.n 1| ≠ 0) :
    ∃ w2, w.apply_tension (some T) none none = Except.ok w2 ∧
      (∀ i s, w2.spokes.get? i = some s → s.tension =
        if i % 2 = 0
        then 2 * T * |s_r.n 0| / (|s_l.n 0 * s_r.n 1| + |s_r.n 0 * s_l.n 1|)
        else 2 * T * |s_l.n 0| / (|s_l.n 0 * s_r.n 1| + |s_r.n 0 * s_l.n 1|)) ∧
      2 * T * |s_r.n 0| / (|s_l.n 0 * s_r.n 1| + |s_r.n 0 * s_l.n 1|) * |s_l.n 0| =
        2 * T * |s_l.n 0| / (|s_l.n 0 * s_r.n 1| + |s_r.n 0 * s_l.n 1|) * |s_r.n 0| ∧
      (2 * T * |s_r.n 0| / (|s_l.n 0 * s_r.n 1| + |s_r.n 0 * s_l.n 1|) * |s_l.n 1| +
        2 * T * |s_l.n 0| / (|s_l.n 0 * s_r.n 1| + |s_r.n 0 * s_l.n 1|) * |s_r.n 1|) / 2
        = T := by
  have e0 : listGet w.spokes 0 = Except.ok s_l := by unfold listGet; rw [h0]
  have e1 : listGet w.spokes 1 = Except.ok s_r := by unfold listGet; rw [h1]
  refine ⟨{ w with spokes :=
      (assignTensions
        (2 * T * |s_r.n 0| / (|s_l.n 0 * s_r.n 1| + |s_r.n 0 * s_l.n 1|))
        (2 * T * |s_l.n 0| / (|s_l.n 0 * s_r.n 1| + |s_r.n 0 * s_l.n 1|))
        w.spokes) }, ?_, ?_, ?_, ?_⟩
  · simp only [BicycleWheel.apply_tension, e0, e1, Bind.bind, Except.bind]
  · intro i s hs
    rw [assignTensions_get?] at hs
    rcases Option.map_eq_some'.mp hs with ⟨s0, _, hfs⟩
    rw [← hfs]
  · ring
  · rw [abs_mul, abs_mul] at hD ⊢
    field_simp
    ring

/-- Witness for `apply_tension_Tavg_balance` at the concrete wheel
`cw3`. -/
theorem apply_tension_Tavg_balance_witness :
    cw3.spokes.get? 0 = some sL3 ∧ cw3.spokes.get? 1 = some sR3 ∧
    (|sL3.n 0 * sR3.n 1| + |sR3.n 0 * sL3.n 1| ≠ 0) ∧
    (∃ w2, cw3.apply_tension (some 1) none none = Except.ok w2 ∧
      (∀ i s, w2.spokes.get? i = some s → s.tension =
        if i % 2 = 0
        then 2 * 1 * |sR3.n 0| / (|sL3.n 0 * sR3.n 1| + |sR3.n 0 * sL3.n 1|)
        else 2 * 1 * |sL3.n 0| / (|sL3.n 0 * sR3.n 1| + |sR3.n 0 * sL3.n 1|)) ∧
      2 * 1 * |sR3.n 0| / (|sL3.n 0 * sR3.n 1| + |sR3.n 0 * sL3.n 1|) * |sL3.n 0| =
        2 * 1 * |sL3.n 0| / (|sL3.n 0 * sR3.n 1| + |sR3.n 0 * sL3.n 1|) * |sR3.n 0| ∧
      (2 * 1 * |sR3.n 0| / (|sL3.n 0 * sR3.n 1| + |sR3.n 0 * sL3.n 1|) * |sL3.n 1| +
        2 * 1 * |sL3.n 0| / (|sL3.n 0 * sR3.n 1| + |sR3.n 0 * sL3.n 1|) * |sR3.n 1|) / 2
        = 1) :=
  ⟨rfl, rfl, by norm_num [sL3, sR3, Spoke.init, abs_of_nonneg],
    apply_tension_Tavg_balance cw3 1 sL3 sR3 rfl rfl
      (by norm_num [sL3, sR3, Spoke.init, abs_of_nonneg])⟩

/-- Counterexample to claim C3 as stated: on the two-spoke wheel `cw3`
(`n_l = (3/5, 4/5, 0)`, `n_r = (-4/5, 3/5, 0)`, denominator 1),
`apply_tension(T_avg=1)` assigns tensions `8/5` and `6/5`, and these
violate the claimed balance `T_l*|n_l0*n_r1| = T_r*|n_r0*n_l1|`
(`72/125` vs `96/125`). -/
theorem apply_tension_Tavg_counterexample :
    ((cw3.apply_tension (some 1) none none).map fun w2 =>
        w2.spokes.map Spoke.tension) = Except.ok [8/5, 6/5] ∧
    (cw3.spokes.map fun s => (s.n 0, s.n 1)) =
      [(3/5, 4/5), (-(4/5), 3/5)] ∧
    |sL3.n 0 * sR3.n 1| + |sR3.n 0 * sL3.n 1| ≠ 0 ∧
    ¬ ((8/5 : ℚ) * |sL3.n 0 * sR3.n 1| = (6/5 : ℚ) * |sR3.n 0 * sL3.n 1|) := by
  refine ⟨?_, ?_, ?_, ?_⟩ <;>
    norm_num [cw3, sL3, sR3, Spoke.init, BicycleWheel.apply_tension, listGet,
      Bind.bind, Except.bind, Except.map, assignTensions, abs_of_nonneg,
      abs_of_nonpos]

/-- Claim C4 (amended): when only `T_left` (resp. only `T_right`) is
given and the divisor direction component is nonzero, the other side's
tension is derived so that the lateral force balance
`T_l*|n_l0| = T_r*|n_r0|` holds (the claim's
`T_l*|n_l0*n_r1| = T_r*|n_r0*n_l1|` is false in general, see the
counterexample). -/
theorem apply_tension_single_side_balance (w : BicycleWheel) (T : ℚ)
    (s_l s_r : Spoke)
    (h0 : w.spokes.get? 0 = some s_l) (h1 : w.spokes.get? 1 = some s_r) :
    (s_r.n 0 ≠ 0 →
      ∃ w2, w.apply_tension none (some T) none = Except.ok w2 ∧
        (∀ i s, w2.spokes.get? i = some s → s.tension =
          if i % 2 = 0 then T else |s_l.n 0 / s_r.n 0| * T) ∧
        T * |s_l.n 0| = |s_l.n 0 / s_r.n 0| * T * |s_r.n 0|) ∧
    (s_l.n 0 ≠ 0 →
      ∃ w2, w.apply_tension none none (some T) = Except.ok w2 ∧
        (∀ i s, w2.spokes.get? i = some s → s.tension =
          if i % 2 = 0 then |s_r.n 0 / s_l.n 0| * T else T) ∧
        |s_r.n 0 / s_l.n 0| * T * |s_l.n 0| = T * |s_r.n 0|) := by
  have e0 : listGet w.spokes 0 = Except.ok s_l := by unfold listGet; rw [h0]
  have e1 : listGet w.spokes 1 = Except.ok s_r := by unfold listGet; rw [h1]
  constructor
  · intro hr
    refine ⟨{ w with spokes :=
        (assignTensions T (|s_l.n 0 / s_r.n 0| * T) w.spokes) }, ?_, ?_, ?_⟩
    · simp only [BicycleWheel.apply_tension, e0, e1, Bind.bind, Except.bind]
    · intro i s hs
      rw [assignTensions_get?] at hs
      rcases Option.map_eq_some'.mp hs with ⟨s0, _, hfs⟩
      rw [← hfs]
    · have habs : |s_r.n 0| ≠ 0 := abs_ne_zero.mpr hr
      rw [abs_div]
      field_simp
      ring
  · intro hl
    refine ⟨{ w with spokes :=
        (assignTensions (|s_r.n 0 / s_l.n 0| * T) T w.spokes) }, ?_, ?_, ?_⟩
    · simp only [BicycleWheel.apply_tension, e0, e1, Bind.bind, Except.bind]
    · intro i s hs
      rw [assignTensions_get?] at hs
      rcases Option.map_eq_some'.mp hs with ⟨s0, _, hfs⟩
      rw [← hfs]
    · have habs : |s_l.n 0| ≠ 0 := abs_ne_zero.mpr hl
      rw [abs_div]
      field_simp
      ring

/-- Witness for `apply_tension_single_side_balance` at the concrete wheel
`cw4`. -/
theorem apply_tension_single_side_balance_witness :
    cw4.spokes.get? 0 = some sL4 ∧ cw4.spokes.get? 1 = some sR4 ∧
    sR4.n 0 ≠ 0 ∧ sL4.n 0 ≠ 0 ∧
    (∃ w2, cw4.apply_tension none (some 1) none = Except.ok w2 ∧
      (∀ i s, w2.spokes.get? i = some s → s.tension =
        if i % 2 = 0 then 1 else |sL4.n 0 / sR4.n 0| * 1) ∧
      1 * |sL4.n 0| = |sL4.n 0 / sR4.n 0| * 1 * |sR4.n 0|) ∧
    (∃ w2, cw4.apply_tension none none (some 1) = Except.ok w2 ∧
      (∀ i s, w2.spokes.get? i = some s → s.tension =
        if i % 2 = 0 then |sR4.n 0 / sL4.n 0| * 1 else 1) ∧
      |sR4.n 0 / sL4.n 0| * 1 * |sL4.n 0| = 1 * |sR4.n 0|) :=
  ⟨rfl, rfl, by norm_num [sR4, Spoke.init], by norm_num [sL4, Spoke.init],
    (apply_tension_single_side_balance cw4 1 sL4 sR4 rfl rfl).1
      (by norm_num [sR4, Spoke.init]),
    (apply_tension_single_side_balance cw4 1 sL4 sR4 rfl rfl).2
      (by norm_num [sL4, Spoke.init])⟩

/-- Counterexample to claim C4 as stated: on the two-spoke wheel `cw4`
(`n_l = (-4/5, 3/5, 0)`, `n_r = (3/5, 4/5, 0)`),
`apply_tension(T_left=1)` yields tensions `1` and `4/3`, and these
violate the claimed ratio `T_l*|n_l0*n_r1| = T_r*|n_r0*n_l1|`
(`16/25` vs `12/25`). -/
theorem apply_tension_single_side_counterexample :
    ((cw4.apply_tension none (some 1) none).map fun w2 =>
        w2.spokes.map Spoke.tension) = Except.ok [1, 4/3] ∧
    (cw4.spokes.map fun s => (s.n 0, s.n 1)) =
      [(-(4/5), 3/5), (3/5, 4/5)] ∧
    ¬ ((1 : ℚ) * |sL4.n 0 * sR4.n 1| = (4/3 : ℚ) * |sR4.n 0 * sL4.n 1|) := by
  refine ⟨?_, ?_, ?_⟩ <;>
    norm_num [cw4, sL4, sR4, Spoke.init, BicycleWheel.apply_tension, listGet,
      Bind.bind, Except.bind, Except.map, assignTensions, abs_of_nonneg,
      abs_of_nonpos]

/-- Claim C8 (amended): on a wheel whose rim density is set and some
spoke density is absent, `calc_rot_inertia` zeroes the ENTIRE spoke term
— the known (density-present) spoke contributions are dropped too, not
summed as the claim states — while emitting the non-fatal diagnostic and
returning the finite rim-only value. -/
theorem calc_rot_inertia_drops_spoke_term (w : BicycleWheel) (rim : Rim)
    (Irim : ℚ) (hr : w.rim = some rim)
    (hip : rim.calc_rot_inertia = some Irim)
    (hmiss : (w.spokes.map Spoke.calc_rot_inertia).any Option.isNone = true) :
    w.calc_rot_inertia =
      Except.ok (Irim, ["Some spoke densities are not specified."]) := by
  simp only [BicycleWheel.calc_rot_inertia, hr, Bind.bind, Except.bind, hip,
    hmiss]
  simp

/-- Witness for `calc_rot_inertia_drops_spoke_term` at the concrete wheel
`cw8` (rim density set, one of two spoke densities set). -/
theorem calc_rot_inertia_drops_spoke_term_witness :
    cw8.rim = some rim8 ∧
    rim8.calc_rot_inertia = some (2*np_pi) ∧
    (cw8.spokes.map Spoke.calc_rot_inertia).any Option.isNone = true ∧
    cw8.calc_rot_inertia =
      Except.ok (2*np_pi, ["Some spoke densities are not specified."]) :=
  ⟨rfl, by norm_num [rim8, Rim.general, Rim.calc_rot_inertia], rfl,
    calc_rot_inertia_drops_spoke_term cw8 rim8 (2*np_pi) rfl
      (by norm_num [rim8, Rim.general, Rim.calc_rot_inertia]) rfl⟩

/-- Counterexample to claim C8 as stated: on `cw8` the known spoke `sk8`
has the nonzero contribution `np_pi/3` (slender-rod term plus
parallel-axis correction), yet `calc_rot_inertia` returns the rim-only
value `2*np_pi`, not `2*np_pi + np_pi/3` as the claim requires. -/
theorem calc_rot_inertia_counterexample :
    cw8.calc_rot_inertia =
      Except.ok (2*np_pi, ["Some spoke densities are not specified."]) ∧
    spokeInertiaContrib rim8.radius sk8 = np_pi/3 ∧
    (2*np_pi : ℚ) + np_pi/3 ≠ 2*np_pi := by
  refine ⟨?_, ?_, ?_⟩
  · norm_num [cw8, rim8, sk8, su8, Spoke.init, Rim.general,
      BicycleWheel.calc_rot_inertia, Rim.calc_rot_inertia,
      Spoke.calc_rot_inertia, Spoke.calc_mass, Bind.bind, Except.bind]
  · norm_num [spokeInertiaContrib, rim8, sk8, Spoke.init, Rim.general,
      Spoke.calc_rot_inertia, Spoke.calc_mass]
    ring
  · norm_num [np_pi]

/-- The quadratic form of `calc_k`: writing
`w = (x0, x1, x2) + x3 * (e3 x b)`, the form equals
`K_e*(n.w)^2 + K_t*(w.w - (n.w)^2)`. -/
theorem calc_k_quad (s : Spoke) (tb : Bool) (x : Fin 4 → ℚ) :
    Matrix.dotProduct x ((s.calc_k tb).mulVec x) =
      (s.EA / s.length) *
          (s.n 0 * (x 0 - x 3 * s.b 1) + s.n 1 * (x 1 + x 3 * s.b 0) +
            s.n 2 * x 2)^2 +
        (if tb then s.tension / s.length else 0) *
          (((x 0 - x 3 * s.b 1)^2 + (x 1 + x 3 * s.b 0)^2 + (x 2)^2) -
            (s.n 0 * (x 0 - x 3 * s.b 1) + s.n 1 * (x 1 + x 3 * s.b 0) +
              s.n 2 * x 2)^2) := by
  cases tb <;>
  · simp [Spoke.calc_k, assemble4, np_outer, cross3, e3, Matrix.mulVec,
      Matrix.dotProduct, Fin.sum_univ_four, Fin.sum_univ_three,
      Matrix.one_apply, Matrix.add_apply, Matrix.smul_apply, Matrix.sub_apply,
      smul_eq_mul, Matrix.of_apply]
    ring

/-- The assembled 4x4 block matrix is symmetric whenever its 3x3 block
is. -/
theorem assemble4_symm_entries (kf : Matrix (Fin 3) (Fin 3) ℚ)
    (dF : Fin 3 → ℚ) (dT : ℚ)
    (h01 : kf 0 1 = kf 1 0) (h02 : kf 0 2 = kf 2 0) (h12 : kf 1 2 = kf 2 1)
    (i j : Fin 4) : assemble4 kf dF dT i j = assemble4 kf dF dT j i := by
  fin_cases i <;> fin_cases j <;> simp [assemble4, h01, h02, h12]

/-- `calc_k` is symmetric for every spoke and either tension flag. -/
theorem calc_k_symm (s : Spoke) (tb : Bool) (i j : Fin 4) :
    s.calc_k tb i j = s.calc_k tb j i := by
  cases tb <;>
  · refine assemble4_symm_entries _ _ _ ?_ ?_ ?_ i j <;>
    · simp [np_outer, Matrix.add_apply, Matrix.smul_apply, Matrix.sub_apply,
        Matrix.one_apply, smul_eq_mul, Matrix.of_apply]
      try ring
      try tauto

/-- Claim C5: for every spoke with unit direction vector, nonnegative
`EA`, nonnegative tension and positive length (the data-model invariant),
`calc_k` with either tension flag is symmetric and positive
semi-definite. -/
theorem calc_k_symmetric_psd (s : Spoke) (tb : Bool)
    (hunit : s.n 0^2 + s.n 1^2 + s.n 2^2 = 1) (hEA : 0 ≤ s.EA)
    (hT : 0 ≤ s.tension) (hL : 0 < s.length) :
    (∀ i j, s.calc_k tb i j = s.calc_k tb j i) ∧
    (∀ x : Fin 4 → ℚ, 0 ≤ Matrix.dotProduct x ((s.calc_k tb).mulVec x)) := by
  refine ⟨calc_k_symm s tb, ?_⟩
  intro x
  rw [calc_k_quad]
  set w0 := x 0 - x 3 * s.b 1 with hw0
  set w1 := x 1 + x 3 * s.b 0 with hw1
  set w2 := x 2 with hw2
  have hLag : (w0^2 + w1^2 + w2^2) -
      (s.n 0 * w0 + s.n 1 * w1 + s.n 2 * w2)^2 =
      (s.n 0 * w1 - s.n 1 * w0)^2 + (s.n 0 * w2 - s.n 2 * w0)^2 +
        (s.n 1 * w2 - s.n 2 * w1)^2 := by
    linear_combination (-(w0^2 + w1^2 + w2^2)) * hunit
  have hKe : 0 ≤ s.EA / s.length := div_nonneg hEA hL.le
  have hKt : 0 ≤ (if tb then s.tension / s.length else 0) := by
    cases tb
    · simp
    · simpa using div_nonneg hT hL.le
  have h1 : 0 ≤ (s.EA / s.length) *
      (s.n 0 * w0 + s.n 1 * w1 + s.n 2 * w2)^2 :=
    mul_nonneg hKe (sq_nonneg _)
  have hB : 0 ≤ (w0^2 + w1^2 + w2^2) -
      (s.n 0 * w0 + s.n 1 * w1 + s.n 2 * w2)^2 := by
    rw [hLag]
    positivity
  have h2 := mul_nonneg hKt hB
  linarith

/-- Witness for `calc_k_symmetric_psd` at the concrete spoke `cs5`. -/
theorem calc_k_symmetric_psd_witness :
    (cs5.n 0^2 + cs5.n 1^2 + cs5.n 2^2 = 1) ∧ (0 ≤ cs5.EA) ∧
    (0 ≤ cs5.tension) ∧ (0 < cs5.length) ∧
    ((∀ i j, cs5.calc_k true i j = cs5.calc_k true j i) ∧
      (∀ x : Fin 4 → ℚ, 0 ≤ Matrix.dotProduct x ((cs5.calc_k true).mulVec x))) :=
  ⟨by norm_num [cs5, Spoke.init],
   by norm_num [cs5, Spoke.init, np_pi],
   by norm_num [cs5, Spoke.init],
   by norm_num [cs5, Spoke.init],
   calc_k_symmetric_psd cs5 true (by norm_num [cs5, Spoke.init])
     (by norm_num [cs5, Spoke.init, np_pi]) (by norm_num [cs5, Spoke.init])
     (by norm_num [cs5, Spoke.init])⟩

set_option maxHeartbeats 1000000 in
/-- Claim C6: for every spoke with nonzero length (the data-model
invariant gives length > 0), `calc_k(tension=true)` equals
`calc_k(tension=false) + tension * calc_k_geom()` entrywise:
`calc_k_geom` is exactly the per-unit-tension geometric stiffness. -/
theorem calc_k_tension_split (s : Spoke) (h : s.length ≠ 0) :
    s.calc_k true = s.calc_k false + s.tension • s.calc_k_geom := by
  ext i j
  fin_cases i <;> fin_cases j <;>
  · simp [Spoke.calc_k, Spoke.calc_k_geom, assemble4, np_outer, cross3, e3,
      Matrix.mulVec, Matrix.dotProduct, Fin.sum_univ_three, Matrix.one_apply,
      Matrix.add_apply, Matrix.smul_apply, Matrix.sub_apply, smul_eq_mul,
      Matrix.of_apply]
    try ring
    try tauto

/-- Witness for `calc_k_tension_split` at the concrete spoke `cs5`. -/
theorem calc_k_tension_split_witness :
    cs5.length ≠ 0 ∧
    cs5.calc_k true = cs5.calc_k false + cs5.tension • cs5.calc_k_geom :=
  ⟨by norm_num [cs5, Spoke.init],
   calc_k_tension_split cs5 (by norm_num [cs5, Spoke.init])⟩

end BikeWheel
